import Mathlib

/-!
Verification of the chat request/response orchestration core.

The development shallowly embeds the orchestration engine: the `ChatClient`
request orchestrator (publish of streaming drafts, stop, resubmit, tool
results, settlement of a request cycle) and the React `ChatStore` registry
(`getClient`, `setStatus`). Mutable TypeScript state becomes explicit state
passing on a `ChatState` structure; the `Map` of chats becomes an
association list with `Map.set` semantics. Functions whose implementation
files are not part of the sources (the resubmission policy and the tool
helpers) are modelled from the specification and marked as such in their
doc comments.
-/

/-- Role of a chat message: `user`, `assistant` or `system`. -/
inductive Role where
  | user
  | assistant
  | system
deriving DecidableEq, Repr

/-- Chat lifecycle status (`ChatStatus` in `chat/types.ts`):
`submitted | streaming | ready | error`. -/
inductive ChatStatus where
  | submitted
  | streaming
  | ready
  | error
deriving DecidableEq, Repr

/-- State of a tool invocation part (spec data model):
`input-streaming`, `input-available`, `output-available`, `output-error`. -/
inductive PartState where
  | inputStreaming
  | inputAvailable
  | outputAvailable
  | outputError
deriving DecidableEq, Repr

/-- A tool-invocation part: `toolCallId`, `toolName`, progressively parsed
`args`, its `state`, the `result` (present only in terminal states), and the
step of the multi-step loop it belongs to. -/
structure ToolInv where
  toolCallId : String
  toolName : String
  args : String
  state : PartState
  result : Option String
  step : Nat
deriving DecidableEq, Repr

/-- One typed part of a message content (tagged union per the data model).
Payloads that the claims never inspect are kept as opaque strings. -/
inductive MsgPart where
  | text (content : String)
  | reasoning (content : String)
  | toolInvocation (inv : ToolInv)
  | data (name : String) (payload : String)
  | source (payload : String)
  | file (payload : String)
  | stepBoundary (step : Nat)
deriving DecidableEq, Repr

/-- A UI message: stable `id`, `role`, ordered `parts`. -/
structure Msg where
  id : String
  role : Role
  parts : List MsgPart
deriving DecidableEq, Repr

/-- A thrown JavaScript error, identified by its `name` (the orchestrator
branches on `err.name === "AbortError"`) and its message text. -/
structure Err where
  name : String
  message : String
deriving DecidableEq, Repr

/-- The cancellation handle of an in-flight response (`AbortController`). -/
structure AbortController where
  aborted : Bool
deriving DecidableEq, Repr

/-- The mutable accumulator for one in-flight assistant message
(`StreamingUIMessageState`); only the draft `message` is relevant here. -/
structure StreamingUIMessageState where
  message : Msg
deriving DecidableEq, Repr

/-- Pair (`ActiveResponse`) of one streaming state with a cancellation handle. -/
structure ActiveResponse where
  state : StreamingUIMessageState
  abortController : Option AbortController
deriving DecidableEq, Repr

/-- The per-chat mutable store (`ChatState` contract in `chat/types.ts`,
implemented by `ReactStateManager`): `id`, `messages`, `status`, `error`,
`activeResponse`. -/
structure ChatState where
  id : String
  messages : List Msg
  status : ChatStatus
  error : Option Err
  activeResponse : Option ActiveResponse
deriving DecidableEq, Repr

/-- Kind (`requestType`) of a triggered request: `generate` or `resume`. -/
inductive RequestType where
  | generate
  | resume
deriving DecidableEq, Repr

/-- The last message of the chat (`ChatClient.lastMessage`:
`messages[messages.length - 1]`, `undefined` on an empty list). -/
def ChatState.lastMessage? (c : ChatState) : Option Msg :=
  c.messages.getLast?

/-- Mutator `setStatus(status, error)`: stores the status and the (possibly absent)
error, as `ReactStateManager.setStatus` does. -/
def ChatState.setStatus (c : ChatState) (status : ChatStatus)
    (e : Option Err) : ChatState :=
  { c with status := status, error := e }

/-- Mutator `setActiveResponse(activeResponse)`. -/
def ChatState.setActiveResponse (c : ChatState)
    (ar : Option ActiveResponse) : ChatState :=
  { c with activeResponse := ar }

/-- Mutator `setMessages(messages)`: replaces the message list. -/
def ChatState.setMessages (c : ChatState) (ms : List Msg) : ChatState :=
  { c with messages := ms }

/-- Mutator `pushMessage(message)`: `messages.concat(message)`. -/
def ChatState.pushMessage (c : ChatState) (m : Msg) : ChatState :=
  { c with messages := c.messages ++ [m] }

/-- Mutator `popMessage()`: `messages.slice(0, -1)`. -/
def ChatState.popMessage (c : ChatState) : ChatState :=
  { c with messages := c.messages.dropLast }

/-- Mutator `replaceMessage(index, message)`:
`[...messages.slice(0, index), message, ...messages.slice(index + 1)]`. -/
def ChatState.replaceMessage (c : ChatState) (index : Nat) (m : Msg) :
    ChatState :=
  { c with messages :=
      c.messages.take index ++ [m] ++ c.messages.drop (index + 1) }

/-- The `write` publish callback built in `runUpdateMessageJob` inside
`triggerRequest`: set status `streaming`, then replace the last message by
the draft when the draft id matches the last message id
(`replaceLastMessage = lastMessage !== undefined && state.message.id ===
lastMessage.id`), otherwise push the draft. -/
def ChatClient.writePublish (c : ChatState) (activeResponse : ActiveResponse) :
    ChatState :=
  let c1 := c.setStatus ChatStatus.streaming none
  match c1.lastMessage? with
  | some lastMsg =>
      if activeResponse.state.message.id == lastMsg.id then
        c1.replaceMessage (c1.messages.length - 1) activeResponse.state.message
      else
        c1.pushMessage activeResponse.state.message
  | none => c1.pushMessage activeResponse.state.message

/-- Modelled from the spec: `getToolInvocations` (its implementation file
`get-tool-invocations.ts` is not among the sources) collects the
tool-invocation parts of a message, in order. -/
def getToolInvocations (m : Msg) : List ToolInv :=
  m.parts.filterMap fun p =>
    match p with
    | MsgPart.toolInvocation inv => some inv
    | _ => none

/-- Modelled from the spec: `extractMaxToolInvocationStep` (its
implementation file `extract-max-tool-invocation-step.ts` is not among the
sources) returns the maximum step recorded on the given tool invocations,
or `none` when there are none -- the max tool-invocation step already
present in the last message, recorded for the resubmission check. -/
def extractMaxToolInvocationStep (invs : List ToolInv) : Option Nat :=
  match invs with
  | [] => none
  | _ => some (invs.foldl (fun acc inv => max acc inv.step) 0)

/-- Modelled from the spec: `isAssistantMessageWithCompletedToolCalls` (its
implementation file `should-resubmit-messages.ts` is not among the sources)
holds of an assistant message whose every tool invocation has a result. -/
def isAssistantMessageWithCompletedToolCalls (m : Msg) : Bool :=
  m.role == Role.assistant &&
    (getToolInvocations m).all fun inv => inv.result.isSome

/-- Terminal tool-invocation states: `output-available` (result) or
`output-error` (error). -/
def PartState.isTerminal (s : PartState) : Bool :=
  s == PartState.outputAvailable || s == PartState.outputError

/-- The step count observed on a message: the max tool-invocation step of
its tool invocations, defaulting to zero when there are none. -/
def observedStep (m : Msg) : Nat :=
  (extractMaxToolInvocationStep (getToolInvocations m)).getD 0

/-- Modelled from the spec: the Resubmission Policy `shouldResubmitMessages`
(its implementation file `should-resubmit-messages.ts` is not among the
sources). Per the spec it is a pure function of the step count observed on
the last assistant message before the call, the message count before the
call, the configured maximum steps, and the resulting message list, and it
returns true only when all hold: the last message is from the assistant;
every tool invocation in it has reached a terminal state (result or error);
the observed step count strictly increased versus before; and the new step
count is still below the configured maximum. -/
def shouldResubmitMessages (originalMaxToolInvocationStep : Option Nat)
    (originalMessageCount : Nat) (maxSteps : Nat) (messages : List Msg) :
    Bool :=
  match messages.getLast? with
  | none => false
  | some lastMsg =>
      lastMsg.role == Role.assistant &&
      ((getToolInvocations lastMsg).all fun inv => inv.state.isTerminal) &&
      originalMaxToolInvocationStep.getD 0 < observedStep lastMsg &&
      observedStep lastMsg < maxSteps

/-- Modelled from the spec: `updateToolCallResult` (its implementation file
`update-tool-call-result.ts` is not among the sources) patches the matching
tool-invocation part of the message list with the given result, putting the
invocation into the terminal `output-available` state; every other part is
left untouched. -/
def updateToolCallResult (messages : List Msg) (toolCallId : String)
    (toolResult : String) : List Msg :=
  messages.map fun m =>
    { m with parts := m.parts.map fun p =>
        match p with
        | MsgPart.toolInvocation inv =>
            if inv.toolCallId == toolCallId then
              MsgPart.toolInvocation
                { inv with result := some toolResult
                           state := PartState.outputAvailable }
            else p
        | _ => p }

/-- Failure cases of `removeAssistantResponse` (the `InvalidStateError`
taxonomy of the spec): the chat is empty, or the last message is not an
assistant message. -/
inductive InvalidStateError where
  | emptyChat
  | lastMessageNotAssistant
deriving DecidableEq, Repr

/-- Translation of `ChatClient.removeAssistantResponse`: throw when the chat
is empty, throw when the last message is not from the assistant, otherwise
`popMessage`. The method triggers no request (no network call), so the
success value carries only the updated state. -/
def ChatClient.removeAssistantResponse (c : ChatState) :
    Except InvalidStateError ChatState :=
  match c.lastMessage? with
  | none => Except.error InvalidStateError.emptyChat
  | some lastMsg =>
      if lastMsg.role != Role.assistant then
        Except.error InvalidStateError.lastMessageNotAssistant
      else
        Except.ok c.popMessage

/-- Translation of the synchronous prefix of `ChatClient.submitMessage`:
push the message with `id: message.id ?? this.generateId()`, then enter the
request cycle with `requestType: 'generate'`. `mId` is the optional id on
the submitted message and `genId` the value `generateId()` would produce. -/
def ChatClient.submitMessagePrep (c : ChatState) (mId : Option String)
    (genId : String) (role : Role) (parts : List MsgPart) :
    ChatState × RequestType :=
  (c.pushMessage { id := mId.getD genId, role := role, parts := parts },
   RequestType.generate)

/-- Translation of the synchronous prefix of
`ChatClient.resubmitLastUserMessage`: return without any effect when the
chat is empty; pop the last message when it is from the assistant; then
enter the request cycle with `requestType: 'generate'`. The second
component records whether (and with which type) a request cycle runs. -/
def ChatClient.resubmitLastUserMessage (c : ChatState) :
    ChatState × Option RequestType :=
  match c.lastMessage? with
  | none => (c, none)
  | some lastMsg =>
      if lastMsg.role == Role.assistant then
        (c.popMessage, some RequestType.generate)
      else
        (c, some RequestType.generate)

/-- Translation of `ChatClient.resumeStream`: enter the request cycle with
`requestType: 'resume'`, appending or removing no message. -/
def ChatClient.resumeStream (c : ChatState) : ChatState × Option RequestType :=
  (c, some RequestType.resume)

/-- Translation of the job enqueued by `ChatClient.addToolResult`: patch the
tool result into the message list via `updateToolCallResult`, republish with
`setMessages`, then return early when the status is `submitted` or
`streaming`; otherwise trigger a `generate` request when the last message is
an assistant message with completed tool calls. The second component is the
request the job triggers, if any. -/
def ChatClient.addToolResultJob (c : ChatState) (toolCallId : String)
    (result : String) : ChatState × Option RequestType :=
  let c1 := c.setMessages (updateToolCallResult c.messages toolCallId result)
  if c1.status == ChatStatus.submitted || c1.status == ChatStatus.streaming
  then
    (c1, none)
  else
    match c1.messages.getLast? with
    | some lastMsg =>
        if isAssistantMessageWithCompletedToolCalls lastMsg then
          (c1, some RequestType.generate)
        else
          (c1, none)
    | none => (c1, none)

/-- Translation of `ChatClient.stopStream`: return unchanged when the status
is neither `streaming` nor `submitted`; otherwise, when the active response
has an abort controller, abort it and clear the handle. The second component
records whether an abort was signalled. -/
def ChatClient.stopStream (c : ChatState) : ChatState × Bool :=
  if c.status != ChatStatus.streaming && c.status != ChatStatus.submitted then
    (c, false)
  else
    match c.activeResponse with
    | some ar =>
        match ar.abortController with
        | some _ =>
            (c.setActiveResponse (some { ar with abortController := none }),
             true)
        | none => (c, false)
    | none => (c, false)

/-- Outcome bookkeeping of one request cycle settlement (the
`try`/`catch`/`finally` tail of `ChatClient.triggerRequest`). -/
structure SettleResult where
  chat : ChatState
  onErrorCalled : Bool
  onFinishCalled : Bool
  reachedResubmitCheck : Bool
deriving DecidableEq, Repr

/-- Translation of the settlement tail of `ChatClient.triggerRequest`,
applied to the chat state as it stands when stream consumption ends.
`outcome` is `none` on success and `some err` when consumption threw `err`.
On success: call `onFinish`, set status `ready`. On an error named
`AbortError`: set status `ready` and return early (skipping the
resubmission check). On any other error: call `onError` when provided, set
status `error` with the error attached. The `finally` block always clears
the active response, and only the early abort return skips the
`shouldResubmitMessages` check. -/
def ChatClient.settleRequest (c : ChatState) (outcome : Option Err)
    (hasOnError : Bool) : SettleResult :=
  match outcome with
  | none =>
      { chat := (c.setStatus ChatStatus.ready none).setActiveResponse none
        onErrorCalled := false
        onFinishCalled := true
        reachedResubmitCheck := true }
  | some err =>
      if err.name == "AbortError" then
        { chat := (c.setStatus ChatStatus.ready none).setActiveResponse none
          onErrorCalled := false
          onFinishCalled := false
          reachedResubmitCheck := false }
      else
        { chat := (c.setStatus ChatStatus.error (some err)).setActiveResponse
            none
          onErrorCalled := hasOnError
          onFinishCalled := false
          reachedResubmitCheck := true }

/-- Whether the tail of `ChatClient.triggerRequest` fires another request
after settlement: control must reach the resubmission check (not the abort
early-return) and `shouldResubmitMessages` must hold of the settled message
list. -/
def ChatClient.triggersFollowUp (c : ChatState) (outcome : Option Err)
    (hasOnError : Bool) (originalMaxStep : Option Nat)
    (originalMessageCount maxSteps : Nat) : Bool :=
  let r := ChatClient.settleRequest c outcome hasOnError
  r.reachedResubmitCheck &&
    shouldResubmitMessages originalMaxStep originalMessageCount maxSteps
      r.chat.messages

/-- Notification event delivered to `ChatStore` subscribers
(`ChatStoreEvent`): `chat-messages-changed` or `chat-status-changed`
(optionally carrying an error). -/
inductive StoreEvent where
  | chatMessagesChanged (chatId : String)
  | chatStatusChanged (chatId : String) (error : Option Err)
deriving DecidableEq, Repr

/-- The multi-chat registry (`ChatStore` in `chat-store.ts`): a `Map` from
chat id to per-chat state, embedded as an association list with unique keys
in insertion order. The transport/schema configuration does not influence
any claimed behaviour and is omitted. -/
structure ChatStore where
  chats : List (String × ChatState)
deriving DecidableEq, Repr

/-- Map update with JavaScript `Map.set` semantics: replace in place when
the key is present, append otherwise. -/
def mapSet (l : List (String × ChatState)) (k : String) (v : ChatState) :
    List (String × ChatState) :=
  match l with
  | [] => [(k, v)]
  | (k', v') :: rest =>
      if k' == k then (k, v) :: rest else (k', v') :: mapSet rest k v

/-- Predicate `ChatStore.hasChat(id)`: `chats.has(id)`. -/
def ChatStore.hasChat (s : ChatStore) (id : String) : Bool :=
  (s.chats.lookup id).isSome

/-- Size accessor `ChatStore.chatCount`: `chats.size`. -/
def ChatStore.chatCount (s : ChatStore) : Nat :=
  s.chats.length

/-- Fresh per-chat state built by `newChatClient(id, [])` via
`new ReactStateManager(emit, id, [])`: empty message list, status `ready`,
no error, no active response. -/
def newChatState (id : String) (messages : List Msg) : ChatState :=
  { id := id
    messages := messages
    status := ChatStatus.ready
    error := none
    activeResponse := none }

/-- Translation of `ChatStore.getClient(id)`: when no chat is registered
under `id`, register a fresh one with an empty message list; return the
(possibly grown) store together with the entry for `id`. -/
def ChatStore.getClient (s : ChatStore) (id : String) :
    ChatStore × ChatState :=
  if s.hasChat id then
    (s, (s.chats.lookup id).getD (newChatState id []))
  else
    ({ chats := mapSet s.chats id (newChatState id []) }, newChatState id [])

/-- Store helper: write back the updated per-chat state for `id` (the
TypeScript state object is mutated in place; the embedding re-inserts it). -/
def ChatStore.writeBack (s : ChatStore) (id : String) (e : ChatState) :
    ChatStore :=
  { chats := mapSet s.chats id e }

/-- Translation of `ChatStore.getStatus(id)`. -/
def ChatStore.getStatus (s : ChatStore) (id : String) :
    ChatStore × ChatStatus :=
  let (s1, e) := s.getClient id
  (s1, e.status)

/-- Translation of `ChatStore.getMessages(id)`. -/
def ChatStore.getMessages (s : ChatStore) (id : String) :
    ChatStore × List Msg :=
  let (s1, e) := s.getClient id
  (s1, e.messages)

/-- Translation of `ChatStore.getError(id)`. -/
def ChatStore.getError (s : ChatStore) (id : String) :
    ChatStore × Option Err :=
  let (s1, e) := s.getClient id
  (s1, e.error)

/-- Translation of `ChatStore.getLastMessage(id)`:
`state.messages[state.messages.length - 1]`. -/
def ChatStore.getLastMessage (s : ChatStore) (id : String) :
    ChatStore × Option Msg :=
  let (s1, e) := s.getClient id
  (s1, e.messages.getLast?)

/-- Translation of `ReactStateManager.setStatus(status, error)`: store both
fields and emit a `chat-status-changed` event. -/
def reactSetStatus (e : ChatState) (status : ChatStatus)
    (err : Option Err) : ChatState × List StoreEvent :=
  ({ e with status := status, error := err },
   [StoreEvent.chatStatusChanged e.id err])

/-- Translation of `ChatStore.setStatus({id, status, error})`: look up (or
create) the chat; return unchanged with no event when the stored status
already equals `status`; otherwise delegate to the state `setStatus`, which
emits `chat-status-changed`. -/
def ChatStore.setStatus (s : ChatStore) (id : String) (status : ChatStatus)
    (err : Option Err) : ChatStore × List StoreEvent :=
  let (s1, e) := s.getClient id
  if e.status == status then
    (s1, [])
  else
    let (e1, evs) := reactSetStatus e status err
    (s1.writeBack id e1, evs)

/-- Translation of `ChatStore.setMessages({id, messages})`: delegate to
`ReactStateManager.setMessages`, which stores a copy of the list and emits
`chat-messages-changed`. -/
def ChatStore.setMessages (s : ChatStore) (id : String) (msgs : List Msg) :
    ChatStore × List StoreEvent :=
  let (s1, e) := s.getClient id
  (s1.writeBack id (e.setMessages msgs),
   [StoreEvent.chatMessagesChanged e.id])

/-- Translation of `ChatStore.submitMessage(id, ...)`: delegate to the
client of the (possibly created) chat; the synchronous prefix pushes the
message and starts a `generate` request. -/
def ChatStore.submitMessage (s : ChatStore) (id : String) (mId : Option String)
    (genId : String) (role : Role) (parts : List MsgPart) :
    ChatStore × RequestType :=
  let (s1, e) := s.getClient id
  let (e1, req) := ChatClient.submitMessagePrep e mId genId role parts
  (s1.writeBack id e1, req)

/-- Translation of `ChatStore.resubmitLastUserMessage(id, ...)`. -/
def ChatStore.resubmitLastUserMessage (s : ChatStore) (id : String) :
    ChatStore × Option RequestType :=
  let (s1, e) := s.getClient id
  let (e1, req) := ChatClient.resubmitLastUserMessage e
  (s1.writeBack id e1, req)

/-- Translation of `ChatStore.resumeStream(id, ...)`. -/
def ChatStore.resumeStream (s : ChatStore) (id : String) :
    ChatStore × Option RequestType :=
  let (s1, e) := s.getClient id
  let (e1, req) := ChatClient.resumeStream e
  (s1.writeBack id e1, req)

/-- Translation of `ChatStore.addToolResult(id, {toolCallId, result})`. -/
def ChatStore.addToolResult (s : ChatStore) (id : String)
    (toolCallId : String) (result : String) :
    ChatStore × Option RequestType :=
  let (s1, e) := s.getClient id
  let (e1, req) := ChatClient.addToolResultJob e toolCallId result
  (s1.writeBack id e1, req)

/-- Translation of `ChatStore.stopStream(id)`. -/
def ChatStore.stopStream (s : ChatStore) (id : String) : ChatStore × Bool :=
  let (s1, e) := s.getClient id
  let (e1, didAbort) := ChatClient.stopStream e
  (s1.writeBack id e1, didAbort)

/-- Translation of `ChatStore.removeAssistantResponse(id)`: the chat is
looked up (and created when missing) before the client method can throw;
on failure the per-chat state is untouched. -/
def ChatStore.removeAssistantResponse (s : ChatStore) (id : String) :
    ChatStore × Except InvalidStateError Unit :=
  let (s1, e) := s.getClient id
  match ChatClient.removeAssistantResponse e with
  | Except.ok e1 => (s1.writeBack id e1, Except.ok ())
  | Except.error err => (s1, Except.error err)

/-- Example tool invocation in the terminal `output-available` state. -/
def toolInvDone : ToolInv :=
  { toolCallId := "call1", toolName := "search", args := "query"
    state := PartState.outputAvailable, result := some "res", step := 1 }

/-- Example tool invocation still awaiting its result. -/
def toolInvPending : ToolInv :=
  { toolCallId := "call1", toolName := "search", args := "query"
    state := PartState.inputAvailable, result := none, step := 1 }

/-- Example user message. -/
def userMsgEx : Msg :=
  { id := "u1", role := Role.user, parts := [MsgPart.text "hi"] }

/-- Example assistant message whose single tool invocation is complete. -/
def asstMsgDone : Msg :=
  { id := "a1", role := Role.assistant
    parts := [MsgPart.toolInvocation toolInvDone] }

/-- Example assistant message whose single tool invocation has no result. -/
def asstMsgPending : Msg :=
  { id := "a1", role := Role.assistant
    parts := [MsgPart.toolInvocation toolInvPending] }

/-- Example chat at rest. -/
def chatReadyEx : ChatState :=
  { id := "chat1", messages := [userMsgEx, asstMsgPending]
    status := ChatStatus.ready, error := none, activeResponse := none }

/-- Example chat mid-stream with an abortable active response. -/
def chatStreamingEx : ChatState :=
  { id := "chat1", messages := [userMsgEx, asstMsgDone]
    status := ChatStatus.streaming, error := none
    activeResponse := some { state := { message := asstMsgDone }
                             abortController := some { aborted := false } } }

/-- Example non-cancellation transport failure. -/
def networkErrEx : Err := { name := "TypeError", message := "fetch failed" }

/-- Example cancellation error. -/
def abortErrEx : Err := { name := "AbortError", message := "aborted" }

/-- Example streaming draft whose message id matches `asstMsgDone`. -/
def draftEx : ActiveResponse :=
  { state := { message := { id := "a1", role := Role.assistant
                            parts := [MsgPart.text "Hello"] } }
    abortController := none }

/-- Example one-chat store. -/
def storeEx : ChatStore := { chats := [("chat1", chatReadyEx)] }

theorem replaceMessage_last (c : ChatState) (m : Msg) (h : c.messages ≠ []) :
    (c.replaceMessage (c.messages.length - 1) m).messages
      = c.messages.dropLast ++ [m] := by
  have hlen : c.messages.length - 1 + 1 = c.messages.length :=
    Nat.succ_pred_eq_of_pos (List.length_pos.mpr h)
  simp only [ChatState.replaceMessage, hlen, List.drop_length,
    List.dropLast_eq_take, List.append_nil]

theorem getElem?_dropLast_append (l : List Msg) (a : Msg) (i : Nat)
    (h : i + 1 < l.length) : (l.dropLast ++ [a])[i]? = l[i]? := by
  rw [List.getElem?_append_left (by simp; omega), List.getElem?_dropLast,
    if_pos (by omega)]

/-- Characterization of the message list produced by one publish. -/
theorem writePublish_messages (c : ChatState) (ar : ActiveResponse) :
    (ChatClient.writePublish c ar).messages =
      match c.messages.getLast? with
      | some lastMsg =>
          if ar.state.message.id == lastMsg.id then
            c.messages.dropLast ++ [ar.state.message]
          else c.messages ++ [ar.state.message]
      | none => c.messages ++ [ar.state.message] := by
  cases hm : c.messages.getLast? with
  | none =>
      simp [ChatClient.writePublish, ChatState.lastMessage?,
        ChatState.setStatus, ChatState.pushMessage, hm]
  | some lastMsg =>
      have hne : c.messages ≠ [] := by
        intro h0
        rw [h0] at hm
        simp at hm
      by_cases hid : ar.state.message.id = lastMsg.id
      · simp only [ChatClient.writePublish, ChatState.lastMessage?,
          ChatState.setStatus, hm, hid, beq_self_eq_true, if_true]
        exact replaceMessage_last
          { c with status := ChatStatus.streaming, error := none } _ hne
      · simp [ChatClient.writePublish, ChatState.lastMessage?,
          ChatState.setStatus, ChatState.pushMessage, hm, hid]

/-- C1: during a request cycle, when the message list is non-empty and the
id of the last message equals the id of the streaming draft, a publish
replaces that last message with the draft; otherwise (empty list or
different id) it appends the draft as a new message; and no other message
of the list is touched. -/
theorem publish_replaces_or_appends (c : ChatState) (ar : ActiveResponse) :
    (∀ lastMsg, c.messages.getLast? = some lastMsg →
        lastMsg.id = ar.state.message.id →
        (ChatClient.writePublish c ar).messages
          = c.messages.dropLast ++ [ar.state.message]) ∧
    ((c.messages = [] ∨
        ∀ lastMsg, c.messages.getLast? = some lastMsg →
          lastMsg.id ≠ ar.state.message.id) →
        (ChatClient.writePublish c ar).messages
          = c.messages ++ [ar.state.message]) ∧
    (∀ i, i + 1 < c.messages.length →
        (ChatClient.writePublish c ar).messages[i]? = c.messages[i]?) := by
  refine ⟨?_, ?_, ?_⟩
  · intro lastMsg hm hid
    rw [writePublish_messages, hm]
    simp [hid]
  · intro h
    rw [writePublish_messages]
    cases hm : c.messages.getLast? with
    | none => rfl
    | some lastMsg =>
        rcases h with h0 | hne
        · rw [h0] at hm
          simp at hm
        · have hid : lastMsg.id ≠ ar.state.message.id := hne lastMsg hm
          simp [Ne.symm hid]
  · intro i hi
    rw [writePublish_messages]
    cases hm : c.messages.getLast? with
    | none =>
        have h0 : c.messages = [] := by simpa using hm
        rw [h0] at hi
        simp at hi
    | some lastMsg =>
        by_cases hid : ar.state.message.id = lastMsg.id
        · simp only [hid, beq_self_eq_true, if_true]
          exact getElem?_dropLast_append c.messages ar.state.message i hi
        · simp only [beq_iff_eq, if_neg hid]
          exact List.getElem?_append_left (show i < c.messages.length by omega)

/-- C1 witness: publishing a draft whose id matches the last message of a
concrete two-message chat replaces that last message and leaves the first
message untouched. -/
theorem publish_replaces_or_appends_witness :
    (ChatClient.writePublish chatStreamingEx draftEx).messages
        = [userMsgEx, draftEx.state.message] ∧
    (ChatClient.writePublish chatStreamingEx draftEx).messages[0]?
        = chatStreamingEx.messages[0]? := by
  have h := publish_replaces_or_appends chatStreamingEx draftEx
  constructor
  · rw [h.1 asstMsgDone (by decide) (by decide)]
    decide
  · exact h.2.2 0 (by decide)

/-- C2: the Resubmission Policy returns true only when the last message is
from the assistant, every tool invocation in it is terminal (result or
error), the observed step count strictly increased versus the recorded one,
and the new step count is below the configured maximum; in particular, for
every input where the message count and the step count are unchanged it
returns false, even when all tool invocations are complete. -/
theorem shouldResubmit_policy (origStep : Option Nat)
    (origCount maxSteps : Nat) (messages : List Msg) :
    (shouldResubmitMessages origStep origCount maxSteps messages = true →
      ∃ lastMsg, messages.getLast? = some lastMsg ∧
        lastMsg.role = Role.assistant ∧
        (∀ inv ∈ getToolInvocations lastMsg,
          inv.state = PartState.outputAvailable ∨
          inv.state = PartState.outputError) ∧
        origStep.getD 0 < observedStep lastMsg ∧
        observedStep lastMsg < maxSteps) ∧
    (origCount = messages.length →
      (∀ lastMsg, messages.getLast? = some lastMsg →
        observedStep lastMsg = origStep.getD 0) →
      shouldResubmitMessages origStep origCount maxSteps messages = false) := by
  constructor
  · intro h
    cases hm : messages.getLast? with
    | none => rw [shouldResubmitMessages, hm] at h; exact absurd h (by simp)
    | some lastMsg =>
        rw [shouldResubmitMessages, hm] at h
        simp only [Bool.and_eq_true, beq_iff_eq, List.all_eq_true,
          decide_eq_true_eq, PartState.isTerminal, Bool.or_eq_true] at h
        exact ⟨lastMsg, rfl, h.1.1.1, h.1.1.2, h.1.2, h.2⟩
  · intro _ hstep
    cases hm : messages.getLast? with
    | none => rw [shouldResubmitMessages, hm]
    | some lastMsg =>
        rw [shouldResubmitMessages, hm]
        simp [hstep lastMsg hm]

/-- C2 witness: the policy returns true on a completed assistant message
whose step advanced from none to 1 under a 2-step budget, and returns false
on the same message when the recorded step count already equals the
observed one and the message count is unchanged. -/
theorem shouldResubmit_policy_witness :
    (∃ lastMsg, [userMsgEx, asstMsgDone].getLast? = some lastMsg ∧
        lastMsg.role = Role.assistant ∧
        (∀ inv ∈ getToolInvocations lastMsg,
          inv.state = PartState.outputAvailable ∨
          inv.state = PartState.outputError) ∧
        (Option.getD none 0) < observedStep lastMsg ∧
        observedStep lastMsg < 2) ∧
    shouldResubmitMessages (some 1) 2 2 [userMsgEx, asstMsgDone] = false := by
  constructor
  · exact (shouldResubmit_policy none 2 2 [userMsgEx, asstMsgDone]).1
      (by decide)
  · exact (shouldResubmit_policy (some 1) 2 2 [userMsgEx, asstMsgDone]).2
      (by decide)
      (by intro lastMsg hl
          have h' : asstMsgDone = lastMsg := by simpa using hl
          subst h'
          decide)

theorem addToolResultJob_fst (c : ChatState) (tid res : String) :
    (ChatClient.addToolResultJob c tid res).1
      = c.setMessages (updateToolCallResult c.messages tid res) := by
  unfold ChatClient.addToolResultJob
  dsimp only
  split
  · rfl
  · split
    · split <;> rfl
    · rfl

/-- C3: the job enqueued by `addToolResult` patches the matching
tool-invocation part with the result (leaving every other part, id and role
untouched) and republishes the patched list; it triggers no request while
the status is `submitted` or `streaming`, and otherwise triggers a
`generate` request when the last message is an assistant message whose
every tool invocation has a result. -/
theorem addToolResult_spec (c : ChatState) (tid res : String) :
    ((ChatClient.addToolResultJob c tid res).1.messages
        = updateToolCallResult c.messages tid res) ∧
    (∀ (i : Nat) (m : Msg), c.messages[i]? = some m →
        ∃ m' : Msg, (updateToolCallResult c.messages tid res)[i]? = some m' ∧
          m'.id = m.id ∧ m'.role = m.role ∧
          (∀ (j : Nat) (p : MsgPart), m.parts[j]? = some p →
            m'.parts[j]? = some (
              match p with
              | MsgPart.toolInvocation inv =>
                  if inv.toolCallId = tid then
                    MsgPart.toolInvocation
                      { inv with result := some res
                                 state := PartState.outputAvailable }
                  else p
              | _ => p))) ∧
    ((c.status = ChatStatus.submitted ∨ c.status = ChatStatus.streaming) →
        (ChatClient.addToolResultJob c tid res).2 = none) ∧
    (c.status ≠ ChatStatus.submitted → c.status ≠ ChatStatus.streaming →
        ∀ lastMsg,
          (updateToolCallResult c.messages tid res).getLast? = some lastMsg →
          isAssistantMessageWithCompletedToolCalls lastMsg = true →
          (ChatClient.addToolResultJob c tid res).2
            = some RequestType.generate) := by
  refine ⟨?_, ?_, ?_, ?_⟩
  · rw [addToolResultJob_fst]
    rfl
  · intro i m hm
    simp only [updateToolCallResult, List.getElem?_map, hm, Option.map_some']
    refine ⟨_, rfl, rfl, rfl, ?_⟩
    intro j p hp
    simp only [List.getElem?_map, hp, Option.map_some']
    cases p with
    | toolInvocation inv =>
        by_cases ht : inv.toolCallId = tid
        · simp [ht]
        · simp [ht]
    | text s => rfl
    | reasoning s => rfl
    | data n s => rfl
    | source s => rfl
    | file s => rfl
    | stepBoundary n => rfl
  · intro h
    rcases h with h | h <;>
      simp [ChatClient.addToolResultJob, ChatState.setMessages, h]
  · intro h1 h2 lastMsg hl hc
    simp [ChatClient.addToolResultJob, ChatState.setMessages, h1, h2, hl, hc]

/-- C3 witness: on a concrete ready chat whose last assistant message has
one pending tool invocation `call1`, the job patches the result in and
triggers a `generate` request; on the same chat mid-stream it triggers
nothing. -/
theorem addToolResult_spec_witness :
    (ChatClient.addToolResultJob chatReadyEx "call1" "res").2
        = some RequestType.generate ∧
    (ChatClient.addToolResultJob
        { chatReadyEx with status := ChatStatus.streaming } "call1" "res").2
        = none ∧
    (∃ m' : Msg, (updateToolCallResult chatReadyEx.messages "call1" "res")[1]?
        = some m' ∧
      m'.id = asstMsgPending.id ∧ m'.role = asstMsgPending.role ∧
      (∀ (j : Nat) (p : MsgPart), asstMsgPending.parts[j]? = some p →
        m'.parts[j]? = some (
          match p with
          | MsgPart.toolInvocation inv =>
              if inv.toolCallId = "call1" then
                MsgPart.toolInvocation
                  { inv with result := some "res"
                             state := PartState.outputAvailable }
              else p
          | _ => p))) := by
  refine ⟨?_, ?_, ?_⟩
  · exact (addToolResult_spec chatReadyEx "call1" "res").2.2.2
      (by decide) (by decide)
      { id := "a1", role := Role.assistant
        parts := [MsgPart.toolInvocation
          { toolCallId := "call1", toolName := "search", args := "query"
            state := PartState.outputAvailable, result := some "res"
            step := 1 }] }
      (by decide) (by decide)
  · exact (addToolResult_spec
      { chatReadyEx with status := ChatStatus.streaming } "call1" "res").2.2.1
      (Or.inr rfl)
  · exact (addToolResult_spec chatReadyEx "call1" "res").2.1 1 asstMsgPending
      (by decide)

/-- C4: when a request cycle ends because the stream was cancelled (an
error named `AbortError`), the orchestrator sets the status to `ready`,
does not invoke the `onError` callback, attaches no error and does not set
the `error` status, and clears the active response. -/
theorem cancellation_is_clean (c : ChatState) (err : Err) (hasOnError : Bool)
    (h : err.name = "AbortError") :
    (ChatClient.settleRequest c (some err) hasOnError).chat.status
        = ChatStatus.ready ∧
    (ChatClient.settleRequest c (some err) hasOnError).onErrorCalled
        = false ∧
    (ChatClient.settleRequest c (some err) hasOnError).chat.error = none ∧
    (ChatClient.settleRequest c (some err) hasOnError).chat.activeResponse
        = none := by
  simp [ChatClient.settleRequest, h, ChatState.setStatus,
    ChatState.setActiveResponse]

/-- C4 witness: settling a concrete streaming chat with a concrete
`AbortError` yields status `ready`, no callback, no error, no active
response. -/
theorem cancellation_is_clean_witness :
    (ChatClient.settleRequest chatStreamingEx (some abortErrEx) true).chat.status
        = ChatStatus.ready ∧
    (ChatClient.settleRequest chatStreamingEx (some abortErrEx) true).onErrorCalled
        = false ∧
    (ChatClient.settleRequest chatStreamingEx (some abortErrEx) true).chat.error
        = none ∧
    (ChatClient.settleRequest chatStreamingEx (some abortErrEx) true).chat.activeResponse
        = none :=
  cancellation_is_clean chatStreamingEx abortErrEx true rfl

/-- C5 counterexample: a request cycle that settles with a non-cancellation
failure (`TypeError`, status set to `error`) over a message list that
satisfies the resubmission policy does trigger a new request
automatically, contradicting the claim that no new request is ever
triggered after a failed cycle. -/
theorem no_auto_retry_counterexample :
    networkErrEx.name ≠ "AbortError" ∧
    (ChatClient.settleRequest chatStreamingEx (some networkErrEx) false).chat.status
        = ChatStatus.error ∧
    ChatClient.triggersFollowUp chatStreamingEx (some networkErrEx) false
        none 2 2 = true := by
  decide

/-- C5 amended: a new request is triggered after settlement exactly when
the outcome is not a cancellation (no `AbortError` early return) and the
resubmission policy holds of the settled message list; in particular a
cycle that failed with a non-cancellation error can still trigger an
automatic continuation, while a cancelled cycle never does. -/
theorem follow_up_after_settlement (c : ChatState) (outcome : Option Err)
    (hasOnError : Bool) (origStep : Option Nat)
    (origCount maxSteps : Nat) :
    ChatClient.triggersFollowUp c outcome hasOnError origStep origCount
        maxSteps
      = (outcome.all (fun err => err.name != "AbortError") &&
          shouldResubmitMessages origStep origCount maxSteps c.messages) := by
  cases outcome with
  | none =>
      simp [ChatClient.triggersFollowUp, ChatClient.settleRequest,
        ChatState.setStatus, ChatState.setActiveResponse]
  | some err =>
      by_cases h : err.name = "AbortError"
      · simp [ChatClient.triggersFollowUp, ChatClient.settleRequest, h,
          ChatState.setStatus, ChatState.setActiveResponse]
      · simp [ChatClient.triggersFollowUp, ChatClient.settleRequest, h,
          ChatState.setStatus, ChatState.setActiveResponse]

/-- C6: calling `stopStream` when the status is neither `submitted` nor
`streaming` changes nothing (status, messages, error and active response
unchanged) and is idempotent; when the status is `submitted` or
`streaming` and the active response carries an abort controller, it
signals the abort and clears the handle. -/
theorem stopStream_spec (c : ChatState) :
    (c.status ≠ ChatStatus.submitted → c.status ≠ ChatStatus.streaming →
        ChatClient.stopStream c = (c, false) ∧
        ChatClient.stopStream (ChatClient.stopStream c).1 = (c, false)) ∧
    (∀ ar ctl,
        c.status = ChatStatus.submitted ∨ c.status = ChatStatus.streaming →
        c.activeResponse = some ar → ar.abortController = some ctl →
        ChatClient.stopStream c
          = (c.setActiveResponse (some { ar with abortController := none }),
             true)) := by
  constructor
  · intro h1 h2
    have hstop : ChatClient.stopStream c = (c, false) := by
      rw [ChatClient.stopStream, if_pos]
      simp [h1, h2]
    exact ⟨hstop, by rw [hstop]; exact hstop⟩
  · intro ar ctl hs har hctl
    have hcond : (c.status != ChatStatus.streaming &&
        c.status != ChatStatus.submitted) = false := by
      rcases hs with h | h <;> simp [h]
    rw [ChatClient.stopStream, if_neg (by simp [hcond]), har]
    simp only [hctl]

/-- C6 witness: stopping a concrete ready chat twice changes nothing, and
stopping a concrete streaming chat with a live abort controller signals
the abort and clears the handle. -/
theorem stopStream_spec_witness :
    ChatClient.stopStream chatReadyEx = (chatReadyEx, false) ∧
    ChatClient.stopStream (ChatClient.stopStream chatReadyEx).1
        = (chatReadyEx, false) ∧
    ChatClient.stopStream chatStreamingEx
      = (chatStreamingEx.setActiveResponse
          (some { state := { message := asstMsgDone }
                  abortController := none }), true) := by
  refine ⟨?_, ?_, ?_⟩
  · exact ((stopStream_spec chatReadyEx).1 (by decide) (by decide)).1
  · exact ((stopStream_spec chatReadyEx).1 (by decide) (by decide)).2
  · exact (stopStream_spec chatStreamingEx).2
      { state := { message := asstMsgDone }
        abortController := some { aborted := false } }
      { aborted := false }
      (Or.inr rfl) rfl rfl

/-- C7: `resubmitLastUserMessage` is a no-op (no message change, no
request) on an empty chat; when the last message is from the assistant it
removes exactly that message and runs a `generate` request cycle; when the
last message is not from the assistant it runs a `generate` request cycle
with the message list unchanged. -/
theorem resubmitLastUserMessage_spec (c : ChatState) :
    (c.messages = [] → ChatClient.resubmitLastUserMessage c = (c, none)) ∧
    (∀ lastMsg, c.messages.getLast? = some lastMsg →
        lastMsg.role = Role.assistant →
        ChatClient.resubmitLastUserMessage c
          = (c.popMessage, some RequestType.generate) ∧
        c.popMessage.messages = c.messages.dropLast) ∧
    (∀ lastMsg, c.messages.getLast? = some lastMsg →
        lastMsg.role ≠ Role.assistant →
        ChatClient.resubmitLastUserMessage c
          = (c, some RequestType.generate)) := by
  refine ⟨?_, ?_, ?_⟩
  · intro h0
    rw [ChatClient.resubmitLastUserMessage]
    have : c.lastMessage? = none := by
      simp [ChatState.lastMessage?, h0]
    rw [this]
  · intro lastMsg hm hrole
    rw [ChatClient.resubmitLastUserMessage]
    have : c.lastMessage? = some lastMsg := hm
    rw [this]
    simp [hrole, ChatState.popMessage]
  · intro lastMsg hm hrole
    rw [ChatClient.resubmitLastUserMessage]
    have : c.lastMessage? = some lastMsg := hm
    rw [this]
    simp [hrole]

/-- C7 witness: on a concrete chat ending in an assistant message the
resubmit removes exactly that message and fires a `generate` request; on a
concrete empty chat it is a no-op. -/
theorem resubmitLastUserMessage_spec_witness :
    (ChatClient.resubmitLastUserMessage chatReadyEx
        = (chatReadyEx.popMessage, some RequestType.generate) ∧
      chatReadyEx.popMessage.messages = chatReadyEx.messages.dropLast) ∧
    ChatClient.resubmitLastUserMessage (newChatState "empty" [])
        = (newChatState "empty" [], none) := by
  constructor
  · exact (resubmitLastUserMessage_spec chatReadyEx).2.1 asstMsgPending
      (by decide) (by decide)
  · exact (resubmitLastUserMessage_spec (newChatState "empty" [])).1 rfl

/-- C8: `removeAssistantResponse` fails with an `InvalidStateError` exactly
when the chat is empty or the last message is not from the assistant
(leaving the message list untouched, since the failure is raised before
any mutation), and otherwise removes exactly the last message; it triggers
no request in any case (the translation returns only the edited state). -/
theorem removeAssistantResponse_spec (c : ChatState) :
    ((∃ e, ChatClient.removeAssistantResponse c = Except.error e) ↔
        (c.messages = [] ∨
          ∃ lastMsg, c.messages.getLast? = some lastMsg ∧
            lastMsg.role ≠ Role.assistant)) ∧
    (c.messages = [] →
        ChatClient.removeAssistantResponse c
          = Except.error InvalidStateError.emptyChat) ∧
    (∀ lastMsg, c.messages.getLast? = some lastMsg →
        lastMsg.role ≠ Role.assistant →
        ChatClient.removeAssistantResponse c
          = Except.error InvalidStateError.lastMessageNotAssistant) ∧
    (∀ lastMsg, c.messages.getLast? = some lastMsg →
        lastMsg.role = Role.assistant →
        ChatClient.removeAssistantResponse c = Except.ok c.popMessage ∧
        c.popMessage.messages = c.messages.dropLast) := by
  have hbody : ∀ lastMsg, c.messages.getLast? = some lastMsg →
      ChatClient.removeAssistantResponse c
        = if lastMsg.role != Role.assistant then
            Except.error InvalidStateError.lastMessageNotAssistant
          else Except.ok c.popMessage := by
    intro lastMsg hm
    rw [ChatClient.removeAssistantResponse]
    have : c.lastMessage? = some lastMsg := hm
    rw [this]
  refine ⟨?_, ?_, ?_, ?_⟩
  · constructor
    · rintro ⟨e, he⟩
      cases hm : c.messages.getLast? with
      | none => exact Or.inl (by simpa using hm)
      | some lastMsg =>
          rw [hbody lastMsg hm] at he
          by_cases hrole : lastMsg.role = Role.assistant
          · rw [if_neg (by simp [hrole])] at he
            exact absurd he (by simp)
          · exact Or.inr ⟨lastMsg, rfl, hrole⟩
    · rintro (h0 | ⟨lastMsg, hm, hrole⟩)
      · refine ⟨InvalidStateError.emptyChat, ?_⟩
        rw [ChatClient.removeAssistantResponse]
        have : c.lastMessage? = none := by simp [ChatState.lastMessage?, h0]
        rw [this]
      · refine ⟨InvalidStateError.lastMessageNotAssistant, ?_⟩
        rw [hbody lastMsg hm, if_pos (by simp [hrole])]
  · intro h0
    rw [ChatClient.removeAssistantResponse]
    have : c.lastMessage? = none := by simp [ChatState.lastMessage?, h0]
    rw [this]
  · intro lastMsg hm hrole
    rw [hbody lastMsg hm, if_pos (by simp [hrole])]
  · intro lastMsg hm hrole
    refine ⟨?_, by simp [ChatState.popMessage]⟩
    rw [hbody lastMsg hm, if_neg (by simp [hrole])]

/-- C8 witness: on a concrete chat ending in an assistant message the
removal succeeds and drops exactly that message; on a concrete chat ending
in a user message it fails with the invalid-state error; on a concrete
empty chat it fails with the empty-chat error. -/
theorem removeAssistantResponse_spec_witness :
    ChatClient.removeAssistantResponse chatReadyEx
        = Except.ok chatReadyEx.popMessage ∧
    ChatClient.removeAssistantResponse
        { chatReadyEx with messages := [userMsgEx] }
        = Except.error InvalidStateError.lastMessageNotAssistant ∧
    ChatClient.removeAssistantResponse (newChatState "empty" [])
        = Except.error InvalidStateError.emptyChat := by
  refine ⟨?_, ?_, ?_⟩
  · exact ((removeAssistantResponse_spec chatReadyEx).2.2.2 asstMsgPending
      (by decide) (by decide)).1
  · exact (removeAssistantResponse_spec
      { chatReadyEx with messages := [userMsgEx] }).2.2.1 userMsgEx
      (by decide) (by decide)
  · exact (removeAssistantResponse_spec (newChatState "empty" [])).2.1 rfl

theorem mapSet_lookup_self (l : List (String × ChatState)) (k : String)
    (v : ChatState) : (mapSet l k v).lookup k = some v := by
  induction l with
  | nil => simp [mapSet]
  | cons hd tl ih =>
      obtain ⟨k', v'⟩ := hd
      by_cases h : k' = k
      · subst h
        simp [mapSet]
      · have hbe : (k == k') = false := by
          rw [beq_eq_false_iff_ne]
          exact Ne.symm h
        simp [mapSet, h, List.lookup, hbe, ih]

theorem mapSet_length_not_mem (l : List (String × ChatState)) (k : String)
    (v : ChatState) (h : l.lookup k = none) :
    (mapSet l k v).length = l.length + 1 := by
  induction l with
  | nil => simp [mapSet]
  | cons hd tl ih =>
      obtain ⟨k', v'⟩ := hd
      by_cases hk : k' = k
      · subst hk
        simp only [List.lookup, beq_self_eq_true] at h
        exact absurd h (by simp)
      · have hbe : (k == k') = false := by
          rw [beq_eq_false_iff_ne]
          exact Ne.symm hk
        have htl : tl.lookup k = none := by
          simpa only [List.lookup, hbe] using h
        simp [mapSet, hk, ih htl]

theorem mapSet_length_mem (l : List (String × ChatState)) (k : String)
    (v : ChatState) (h : (l.lookup k).isSome = true) :
    (mapSet l k v).length = l.length := by
  induction l with
  | nil =>
      simp only [List.lookup, Option.isSome_none] at h
      exact Bool.noConfusion h
  | cons hd tl ih =>
      obtain ⟨k', v'⟩ := hd
      by_cases hk : k' = k
      · subst hk
        simp [mapSet]
      · have hbe : (k == k') = false := by
          rw [beq_eq_false_iff_ne]
          exact Ne.symm hk
        have htl : (tl.lookup k).isSome = true := by
          simpa only [List.lookup, hbe] using h
        simp [mapSet, hk, ih htl]

theorem hasChat_false_lookup (s : ChatStore) (id : String)
    (h : s.hasChat id = false) : s.chats.lookup id = none := by
  cases h' : s.chats.lookup id with
  | none => rfl
  | some e =>
      rw [ChatStore.hasChat, h'] at h
      exact absurd h (by simp)

theorem getClient_not_hasChat (s : ChatStore) (id : String)
    (h : s.hasChat id = false) :
    s.getClient id
      = ({ chats := mapSet s.chats id (newChatState id []) },
         newChatState id []) := by
  rw [ChatStore.getClient, if_neg (by simp [h])]

/-- C9: invoking any per-id accessor or operation of the store with an id
for which no chat exists implicitly creates a new chat with an empty
message list and status `ready`; afterwards `hasChat` is true and the chat
count has increased by one (for every listed operation). -/
theorem store_ops_create_chat (s : ChatStore) (id : String)
    (h : s.hasChat id = false) :
    ((s.getClient id).2.messages = [] ∧
      (s.getClient id).2.status = ChatStatus.ready) ∧
    ((s.getClient id).1.hasChat id = true ∧
      (s.getClient id).1.chatCount = s.chatCount + 1) ∧
    ((s.getStatus id).1.hasChat id = true ∧
      (s.getStatus id).1.chatCount = s.chatCount + 1 ∧
      (s.getStatus id).2 = ChatStatus.ready) ∧
    ((s.getMessages id).1.hasChat id = true ∧
      (s.getMessages id).1.chatCount = s.chatCount + 1 ∧
      (s.getMessages id).2 = []) ∧
    ((s.getError id).1.hasChat id = true ∧
      (s.getError id).1.chatCount = s.chatCount + 1 ∧
      (s.getError id).2 = none) ∧
    ((s.getLastMessage id).1.hasChat id = true ∧
      (s.getLastMessage id).1.chatCount = s.chatCount + 1 ∧
      (s.getLastMessage id).2 = none) ∧
    (∀ st er, (ChatStore.setStatus s id st er).1.hasChat id = true ∧
      (ChatStore.setStatus s id st er).1.chatCount = s.chatCount + 1) ∧
    (∀ msgs, (ChatStore.setMessages s id msgs).1.hasChat id = true ∧
      (ChatStore.setMessages s id msgs).1.chatCount = s.chatCount + 1) ∧
    (∀ mId genId role parts,
      (ChatStore.submitMessage s id mId genId role parts).1.hasChat id
          = true ∧
      (ChatStore.submitMessage s id mId genId role parts).1.chatCount
          = s.chatCount + 1) ∧
    ((s.resubmitLastUserMessage id).1.hasChat id = true ∧
      (s.resubmitLastUserMessage id).1.chatCount = s.chatCount + 1) ∧
    ((s.resumeStream id).1.hasChat id = true ∧
      (s.resumeStream id).1.chatCount = s.chatCount + 1) ∧
    (∀ tid res, (ChatStore.addToolResult s id tid res).1.hasChat id = true ∧
      (ChatStore.addToolResult s id tid res).1.chatCount = s.chatCount + 1) ∧
    ((s.stopStream id).1.hasChat id = true ∧
      (s.stopStream id).1.chatCount = s.chatCount + 1) ∧
    ((s.removeAssistantResponse id).1.hasChat id = true ∧
      (s.removeAssistantResponse id).1.chatCount = s.chatCount + 1) := by
  have hg := getClient_not_hasChat s id h
  have hlk := hasChat_false_lookup s id h
  have h0 : (ChatStore.mk
        (mapSet s.chats id (newChatState id []))).hasChat id = true ∧
      (ChatStore.mk
        (mapSet s.chats id (newChatState id []))).chatCount
          = s.chatCount + 1 := by
    constructor
    · simp [ChatStore.hasChat, mapSet_lookup_self]
    · simp [ChatStore.chatCount, mapSet_length_not_mem _ _ _ hlk]
  have h1 : ∀ e : ChatState,
      ((ChatStore.mk
          (mapSet s.chats id (newChatState id []))).writeBack id e).hasChat
            id = true ∧
      ((ChatStore.mk
          (mapSet s.chats id (newChatState id []))).writeBack id
            e).chatCount = s.chatCount + 1 := by
    intro e
    constructor
    · simp [ChatStore.writeBack, ChatStore.hasChat, mapSet_lookup_self]
    · have hsome :
          ((mapSet s.chats id (newChatState id [])).lookup id).isSome
            = true := by
        simp [mapSet_lookup_self]
      simp [ChatStore.writeBack, ChatStore.chatCount,
        mapSet_length_mem _ _ _ hsome, mapSet_length_not_mem _ _ _ hlk]
  refine ⟨?_, ?_, ?_, ?_, ?_, ?_, ?_, ?_, ?_, ?_, ?_, ?_, ?_, ?_⟩
  · rw [hg]
    exact ⟨rfl, rfl⟩
  · rw [hg]
    exact h0
  · rw [ChatStore.getStatus, hg]
    exact ⟨h0.1, h0.2, rfl⟩
  · rw [ChatStore.getMessages, hg]
    exact ⟨h0.1, h0.2, rfl⟩
  · rw [ChatStore.getError, hg]
    exact ⟨h0.1, h0.2, rfl⟩
  · rw [ChatStore.getLastMessage, hg]
    exact ⟨h0.1, h0.2, rfl⟩
  · intro st er
    rw [ChatStore.setStatus, hg]
    dsimp only
    by_cases hc : ((newChatState id []).status == st) = true
    · rw [if_pos hc]
      exact h0
    · rw [if_neg hc]
      exact h1 _
  · intro msgs
    rw [ChatStore.setMessages, hg]
    exact h1 _
  · intro mId genId role parts
    rw [ChatStore.submitMessage, hg]
    exact h1 _
  · rw [ChatStore.resubmitLastUserMessage, hg]
    exact h1 _
  · rw [ChatStore.resumeStream, hg]
    exact h1 _
  · intro tid res
    rw [ChatStore.addToolResult, hg]
    exact h1 _
  · rw [ChatStore.stopStream, hg]
    exact h1 _
  · rw [ChatStore.removeAssistantResponse, hg]
    dsimp only
    rw [show ChatClient.removeAssistantResponse (newChatState id [])
        = Except.error InvalidStateError.emptyChat from rfl]
    exact h0

/-- C9 witness: on a concrete one-chat store and a fresh id, the accessors
and operations create the chat (empty, `ready`) and the chat count grows
from 1 to 2. -/
theorem store_ops_create_chat_witness :
    (storeEx.getClient "chat2").2.messages = [] ∧
    (storeEx.getClient "chat2").2.status = ChatStatus.ready ∧
    (storeEx.getStatus "chat2").1.hasChat "chat2" = true ∧
    (storeEx.getStatus "chat2").1.chatCount = storeEx.chatCount + 1 ∧
    (ChatStore.submitMessage storeEx "chat2" none "g1" Role.user
        [MsgPart.text "hi"]).1.hasChat "chat2" = true ∧
    (ChatStore.submitMessage storeEx "chat2" none "g1" Role.user
        [MsgPart.text "hi"]).1.chatCount = storeEx.chatCount + 1 ∧
    (storeEx.removeAssistantResponse "chat2").1.hasChat "chat2" = true := by
  have h := store_ops_create_chat storeEx "chat2" (by decide)
  exact ⟨h.1.1, h.1.2, h.2.2.1.1, h.2.2.1.2.1,
    (h.2.2.2.2.2.2.2.2.1 none "g1" Role.user [MsgPart.text "hi"]).1,
    (h.2.2.2.2.2.2.2.2.1 none "g1" Role.user [MsgPart.text "hi"]).2,
    h.2.2.2.2.2.2.2.2.2.2.2.2.2.1⟩

/-- C10: calling the store `setStatus` with a status equal to the current
status of the chat changes nothing: the store is returned unchanged (so
both the stored status and the stored error are unchanged) and no
`chat-status-changed` event is emitted, even when a different non-null
error argument is supplied. -/
theorem setStatus_same_status_noop (s : ChatStore) (id : String)
    (e : ChatState) (st : ChatStatus) (er : Option Err)
    (h1 : s.chats.lookup id = some e) (h2 : e.status = st) :
    ChatStore.setStatus s id st er = (s, []) := by
  have hhas : s.hasChat id = true := by simp [ChatStore.hasChat, h1]
  have hget : s.getClient id = (s, e) := by
    rw [ChatStore.getClient, if_pos (by simp [hhas]), h1]
    rfl
  rw [ChatStore.setStatus, hget]
  dsimp only
  rw [if_pos (by simp [h2])]

/-- C10 witness: on a concrete store whose chat is `ready`, setting status
`ready` with a non-null error argument returns the store unchanged and
emits nothing. -/
theorem setStatus_same_status_noop_witness :
    ChatStore.setStatus storeEx "chat1" ChatStatus.ready (some networkErrEx)
      = (storeEx, []) :=
  setStatus_same_status_noop storeEx "chat1" chatReadyEx ChatStatus.ready
    (some networkErrEx) (by decide) rfl
